import Mathlib

/-!
Verification of the MaBoSS client front end
(`engine/src/MaBoSS-client.cc` of PhysiBoSSa-EMEWS).

The embedding models `main` of `MaBoSS-client.cc`: the command-line
parsing loop (lines 95-162), the post-loop checks (lines 164-173), the
request-building phase (lines 175-212), and the post-exchange output and
exit phase (lines 218-241).  Collaborator code that is not part of the
repository snapshot (`Utils.h`, `DataStreamer.h`, `Client.h`) is modelled
from the specification where it matters: file reading is a partial map
from paths to contents, the `DataStreamer` flag constants are a bit-field
over three distinct flags, and the transport exchange is abstracted by
handing the reply (`ServerData`) to the run as a parameter.
-/

namespace MaBoSSClient

/-- One `--config` / `--config-expr` option, as stored in
`runconfig_file_or_expr_v` (a `ConfigOpt` is built with the option
argument and an `isExpr` tag). -/
inductive ConfigOpt where
  | file (path : String)
  | expr (text : String)
  deriving DecidableEq, Repr

/-- A configuration fragment of the Request Model: either the literal
contents of a configuration file (added by `addConfig`) or an inline
expression (added by `addConfigExpr`). -/
inductive Fragment where
  | fileContents (text : String)
  | exprText (text : String)
  deriving DecidableEq, Repr

/-- The command selector sent to the server (`RUN_COMMAND` /
`CHECK_COMMAND`). -/
inductive Command where
  | runCmd
  | checkCmd
  deriving DecidableEq, Repr

/-- Modelled from the spec: the `DataStreamer` flag constants live in
`DataStreamer.h`, which is not part of the snapshot; the spec describes
the flags word as a bit-field over three distinct flags
(HEXFLOAT | OVERRIDE | AUGMENT), so they are modelled as three distinct
bits. -/
def HEXFLOAT_FLAG : Nat := 1

/-- Modelled from the spec: see `HEXFLOAT_FLAG`. -/
def OVERRIDE_FLAG : Nat := 2

/-- Modelled from the spec: see `HEXFLOAT_FLAG`. -/
def AUGMENT_FLAG : Nat := 4

/-- The Request Model (`ClientData`), as populated by `main`:
`setNetwork`, `addConfig`/`addConfigExpr` (ordered fragments),
`setConfigVars`, `setCommand`, `setFlags`. -/
structure ClientData where
  network : String
  fragments : List Fragment
  configVars : String
  command : Command
  flags : Nat
  deriving DecidableEq, Repr

/-- The Reply Model (`ServerData`): five blobs, a status and an error
message. -/
structure ServerData where
  traj : String
  runLog : String
  probTraj : String
  statDist : String
  fp : String
  status : Int
  errorMessage : String
  deriving DecidableEq, Repr

/-- The mutable locals of `main` that the parsing loop updates
(lines 83-93), plus the warnings the loop prints on extra positional
arguments (line 160). -/
structure ParseState where
  output : Option String
  configs : List ConfigOpt
  config_vars : String
  ctbndl_file : Option String
  port : String
  host : String
  verbose : Bool
  check : Bool
  override : Bool
  augment : Bool
  hexfloat : Bool
  warnings : List String
  deriving DecidableEq, Repr

/-- The distinct early-exit error paths of the parsing phase; each
constructor corresponds to one distinct `std err` message followed by
`return usage()` (exit code 1) in the source. -/
inductive UsageErr where
  | argMissing (opt : String)
  | exclusiveFlags
  | unknownOption (opt : String)
  | networkFileMissing
  | portMissing
  deriving DecidableEq, Repr

/-- Result of the parsing phase: `versionOut` and `helpOut` are the two
exit-code-0 early returns, `fail` the `usage()` returns, `ok` the
fall-through to the request-building phase. -/
inductive ParseResult where
  | ok (s : ParseState)
  | versionOut
  | helpOut
  | fail (e : UsageErr)
  deriving DecidableEq, Repr

/-- `opt[0] == '-'` of the source; an empty argument does not start with
a dash. -/
def startsDash (s : String) : Bool :=
  match s.data with
  | [] => false
  | c :: _ => c == '-'

/-- One `--config-vars` accumulation step (lines 116-119): append a
comma first when the accumulator is non-empty, then the argument. -/
def joinStep (v a : String) : String :=
  (if v.length > 0 then v ++ "," else v) ++ a

/-- The warning printed for an extra positional argument (line 160). -/
def extraArgWarning (f : Option String) (p : String) : String :=
  "MaBoSS-client: boolean network file is already set to " ++ f.getD "" ++ " [" ++ p ++ "]"

/-- The argument-parsing loop of `main` (lines 95-162), one recursive
step per `argv` element; options taking an argument consume the next
element, failing like `checkArgMissing` when there is none. -/
def parseLoop : List String → ParseState → ParseResult
  | [], s => .ok s
  | opt :: rest, s =>
    if startsDash opt then
      if opt == "-version" || opt == "--version" then
        .versionOut
      else if opt == "--host" then
        match rest with
        | [] => .fail (.argMissing opt)
        | a :: rest2 => parseLoop rest2 { s with host := a }
      else if opt == "--port" then
        match rest with
        | [] => .fail (.argMissing opt)
        | a :: rest2 => parseLoop rest2 { s with port := a }
      else if opt == "--config-vars" then
        match rest with
        | [] => .fail (.argMissing opt)
        | a :: rest2 => parseLoop rest2 { s with config_vars := joinStep s.config_vars a }
      else if opt == "--config-expr" || opt == "-e" then
        match rest with
        | [] => .fail (.argMissing opt)
        | a :: rest2 => parseLoop rest2 { s with configs := s.configs ++ [ConfigOpt.expr a] }
      else if opt == "-o" || opt == "--output" then
        match rest with
        | [] => .fail (.argMissing opt)
        | a :: rest2 => parseLoop rest2 { s with output := some a }
      else if opt == "-c" || opt == "--config" then
        match rest with
        | [] => .fail (.argMissing opt)
        | a :: rest2 => parseLoop rest2 { s with configs := s.configs ++ [ConfigOpt.file a] }
      else if opt == "--verbose" then
        parseLoop rest { s with verbose := true }
      else if opt == "--override" then
        if s.augment then .fail .exclusiveFlags
        else parseLoop rest { s with override := true }
      else if opt == "--augment" then
        if s.override then .fail .exclusiveFlags
        else parseLoop rest { s with augment := true }
      else if opt == "--check" then
        parseLoop rest { s with check := true }
      else if opt == "--hexfloat" then
        parseLoop rest { s with hexfloat := true }
      else if opt == "--help" || opt == "-h" then
        .helpOut
      else
        .fail (.unknownOption opt)
    else if s.ctbndl_file.isNone then
      parseLoop rest { s with ctbndl_file := some opt }
    else
      parseLoop rest { s with warnings := s.warnings ++ [extraArgWarning s.ctbndl_file opt] }

/-- The initial values of `main`'s locals (lines 83-93). -/
def initState : ParseState :=
  { output := none, configs := [], config_vars := "", ctbndl_file := none,
    port := "", host := "", verbose := false, check := false,
    override := false, augment := false, hexfloat := false, warnings := [] }

/-- The whole parsing phase: the loop, then the network-file check
(lines 164-167) and the port check (lines 170-173). -/
def parseArgs (argv : List String) : ParseResult :=
  match parseLoop argv initState with
  | .ok s =>
    if s.ctbndl_file.isNone then .fail .networkFileMissing
    else if s.port.length == 0 then .fail .portMissing
    else .ok s
  | r => r

/-- Modelled from the spec: `fileGetContents` lives in `Utils.h`, which
is not part of the snapshot; the spec gives the collaborator interface
`readFile(path) -> text | IOError`, modelled as a partial map `fs` from
paths to contents (`none` is the IOError, on which `main` returns 1). -/
def FileSystem : Type := String → Option String

/-- The fragment-building loop of `main` (lines 183-197): `--config-expr`
options become inline-expression fragments, `--config` options are read
through the file system and become file-contents fragments; the first
read failure aborts the run (`return 1`). -/
def buildFragments (fs : FileSystem) : List ConfigOpt → Option (List Fragment)
  | [] => some []
  | ConfigOpt.expr e :: rest =>
    (buildFragments fs rest).map (fun l => Fragment.exprText e :: l)
  | ConfigOpt.file f :: rest =>
    match fs f with
    | none => none
    | some c => (buildFragments fs rest).map (fun l => Fragment.fileContents c :: l)

/-- The flags computation of `main` (lines 202-212): start from 0 and OR
in each constant whose option was given. -/
def computeFlags (hexfloat ov aug : Bool) : Nat :=
  let f0 : Nat := 0
  let f1 := if hexfloat then f0 ||| HEXFLOAT_FLAG else f0
  let f2 := if ov then f1 ||| OVERRIDE_FLAG else f1
  if aug then f2 ||| AUGMENT_FLAG else f2

/-- The request-building phase of `main` (lines 175-212): read the
network file (lines 177-181), build the fragments (lines 183-197), set
the variable overrides (line 199), the command (line 201) and the flags
(lines 202-212); `none` is a file-read failure (`return 1`). -/
def buildRequestData (fs : FileSystem) (s : ParseState) : Option ClientData :=
  match s.ctbndl_file with
  | none => none
  | some path =>
    match fs path with
    | none => none
    | some net =>
      match buildFragments fs s.configs with
      | none => none
      | some frags =>
        some { network := net, fragments := frags,
               configVars := s.config_vars,
               command := if s.check then Command.checkCmd else Command.runCmd,
               flags := computeFlags s.hexfloat s.override s.augment }

/-- One attempted output-file write: the `-o` prefix as `main` holds it
(`none` when `-o` was never given and `output` is still `NULL`), the
fixed suffix, and the blob contents; the file name the code builds is
`std::string(output) + suffix`. -/
structure WriteAttempt where
  stem : Option String
  suffix : String
  contents : String
  deriving DecidableEq, Repr

/-- The five blob kinds of the reply, in the order `main` writes them. -/
inductive BlobKind where
  | traj
  | runLog
  | probTraj
  | statDist
  | fp
  deriving DecidableEq, Repr

/-- The reply accessor for each blob kind. -/
def blobOf : BlobKind → ServerData → String
  | .traj, sd => sd.traj
  | .runLog, sd => sd.runLog
  | .probTraj, sd => sd.probTraj
  | .statDist, sd => sd.statDist
  | .fp, sd => sd.fp

/-- The fixed output-file suffix for each blob kind (lines 219-231). -/
def suffixOf : BlobKind → String
  | .traj => "_traj.txt"
  | .runLog => "_run.txt"
  | .probTraj => "_probtraj.csv"
  | .statDist => "_statdist.csv"
  | .fp => "_fp.csv"

/-- The output-writing phase of `main` (lines 218-232): each blob is
written exactly when its length is positive, in the fixed order. -/
def outputWrites (stem : Option String) (sd : ServerData) : List WriteAttempt :=
  (if sd.traj.length > 0 then [⟨stem, "_traj.txt", sd.traj⟩] else []) ++
  (if sd.runLog.length > 0 then [⟨stem, "_run.txt", sd.runLog⟩] else []) ++
  (if sd.probTraj.length > 0 then [⟨stem, "_probtraj.csv", sd.probTraj⟩] else []) ++
  (if sd.statDist.length > 0 then [⟨stem, "_statdist.csv", sd.statDist⟩] else []) ++
  (if sd.fp.length > 0 then [⟨stem, "_fp.csv", sd.fp⟩] else [])

/-- The error line printed on a non-zero reply status (line 235). -/
def errorLine (sd : ServerData) : String :=
  "MaBoSS-client error: [" ++ sd.errorMessage ++ "] [status=" ++ toString sd.status ++ "]"

/-- The post-exchange phase of `main` (lines 218-241): the writes, then
the exit code and the error line (exit 1 with the error line when the
status is non-zero, exit 0 otherwise). -/
def finishExchange (stem : Option String) (sd : ServerData) :
    List WriteAttempt × Nat × Option String :=
  (outputWrites stem sd,
   if sd.status != 0 then (1, some (errorLine sd)) else (0, none))

/-- The possible outcomes of one `main` invocation: the two exit-code-0
early returns, a `usage()` error (exit 1), a file-read failure (exit 1),
or a completed exchange carrying the request that was sent, the write
attempts, the exit code and the error line, if any. -/
inductive Outcome where
  | versionShown
  | helpShown
  | usage (e : UsageErr)
  | ioError
  | done (req : ClientData) (writes : List WriteAttempt) (exitCode : Nat) (errLine : Option String)
  deriving DecidableEq, Repr

/-- The whole of `main`, with the transport exchange abstracted: the
reply the server would produce is passed in as `reply`, and a completed
run records the request handed to `Client::send` together with the
post-exchange effects. -/
def mainRun (fs : FileSystem) (argv : List String) (reply : ServerData) : Outcome :=
  match parseArgs argv with
  | .versionOut => .versionShown
  | .helpOut => .helpShown
  | .fail e => .usage e
  | .ok s =>
    match buildRequestData fs s with
    | none => .ioError
    | some req =>
      .done req (finishExchange s.output reply).1
        (finishExchange s.output reply).2.1 (finishExchange s.output reply).2.2

/-- The request sent during a run, when the run completed an exchange. -/
def reqOf : Outcome → Option ClientData
  | .done r _ _ _ => some r
  | _ => none

/-- The output files written during a run. -/
def writesOf : Outcome → List WriteAttempt
  | .done _ w _ _ => w
  | _ => []

/-- The process exit code of a run. -/
def codeOf : Outcome → Nat
  | .versionShown => 0
  | .helpShown => 0
  | .usage _ => 1
  | .ioError => 1
  | .done _ _ c _ => c

/-- The error line a run printed, if any. -/
def errOf : Outcome → Option String
  | .done _ _ _ e => e
  | _ => none

/-- Spec-side definition, following the spec's words for comparison: the
comma-join of a list of strings. -/
def commaJoin : List String → String
  | [] => ""
  | [a] => a
  | a :: rest => a ++ "," ++ commaJoin rest

/-- Spec-side definition, following the spec's words for comparison: one
fragment per `--config`/`--config-expr` option, in option order, each
tagged with its kind, file options resolved through the file system. -/
def specFragments (fs : FileSystem) (opts : List ConfigOpt) : Option (List Fragment) :=
  opts.mapM (fun c =>
    match c with
    | ConfigOpt.expr e => some (Fragment.exprText e)
    | ConfigOpt.file f => (fs f).map Fragment.fileContents)

/-- A parse state with the accumulated warnings dropped; two states equal
up to `stripWarn` drive the rest of the run identically. -/
def stripWarn (s : ParseState) : ParseState := { s with warnings := [] }

/-- `stripWarn` applied under `ParseResult.ok`. -/
def stripRes : ParseResult → ParseResult
  | .ok s => .ok (stripWarn s)
  | r => r

theorem strLenPos (s : String) : 0 < s.length ↔ s ≠ "" := by
  rw [Nat.pos_iff_ne_zero]
  constructor
  · intro h he; exact h (by simp [he])
  · intro h hz
    apply h
    cases s with
    | mk d => cases d with
      | nil => rfl
      | cons c cs => simp [String.length] at hz

theorem write_mem_iff (stem : Option String) (sd : ServerData) (w : WriteAttempt) :
    w ∈ outputWrites stem sd ↔
      ∃ k, w = ⟨stem, suffixOf k, blobOf k sd⟩ ∧ blobOf k sd ≠ "" := by
  unfold outputWrites
  simp only [List.mem_append]
  constructor
  · intro h
    rcases h with (((h | h) | h) | h) | h <;>
      rw [List.mem_ite_nil_right, List.mem_singleton] at h
    · exact ⟨BlobKind.traj, h.2, by rw [← strLenPos]; exact h.1⟩
    · exact ⟨BlobKind.runLog, h.2, by rw [← strLenPos]; exact h.1⟩
    · exact ⟨BlobKind.probTraj, h.2, by rw [← strLenPos]; exact h.1⟩
    · exact ⟨BlobKind.statDist, h.2, by rw [← strLenPos]; exact h.1⟩
    · exact ⟨BlobKind.fp, h.2, by rw [← strLenPos]; exact h.1⟩
  · rintro ⟨k, rfl, hne⟩
    rw [← strLenPos] at hne
    cases k <;> (simp only [blobOf] at hne; simp [blobOf, suffixOf, hne])

theorem suffixOf_inj (k k2 : BlobKind) (h : suffixOf k = suffixOf k2) : k = k2 := by
  cases k <;> cases k2 <;> first | rfl | simp [suffixOf] at h

theorem buildFragments_eq_spec (fs : FileSystem) (opts : List ConfigOpt) :
    buildFragments fs opts = specFragments fs opts := by
  induction opts with
  | nil => rfl
  | cons c rest ih =>
    unfold specFragments
    rw [List.mapM_cons]
    have hrest : rest.mapM (fun c =>
        match c with
        | ConfigOpt.expr e => some (Fragment.exprText e)
        | ConfigOpt.file f => (fs f).map Fragment.fileContents) = specFragments fs rest := rfl
    rw [hrest, ← ih]
    cases c with
    | expr e =>
      cases hb : buildFragments fs rest <;>
        simp [buildFragments, hb, Option.bind, Bind.bind, Pure.pure]
    | file f =>
      cases hf : fs f with
      | none => simp [buildFragments, hf, Option.bind, Bind.bind]
      | some c2 =>
        cases hb : buildFragments fs rest <;>
          simp [buildFragments, hf, hb, Option.bind, Bind.bind, Pure.pure]

theorem commaJoin_cons (a b : String) (rest : List String) :
    commaJoin (a :: b :: rest) = a ++ "," ++ commaJoin (b :: rest) := rfl

theorem foldl_joinStep_ne (args : List String) :
    ∀ v : String, v ≠ "" → List.foldl joinStep v args = commaJoin (v :: args) := by
  induction args with
  | nil => intro v hv; rfl
  | cons a rest ih =>
    intro v hv
    have hjoin : joinStep v a = v ++ "," ++ a := by
      have : v.length > 0 := (strLenPos v).2 hv
      simp [joinStep, this]
    have hne : joinStep v a ≠ "" := by
      rw [hjoin]
      intro hcon
      have := congrArg String.length hcon
      simp [String.length_append] at this
      exact absurd this.1.2 (by decide)
    calc List.foldl joinStep v (a :: rest) = List.foldl joinStep (joinStep v a) rest := rfl
      _ = commaJoin (joinStep v a :: rest) := ih _ hne
      _ = commaJoin (v :: a :: rest) := by
          cases rest with
          | nil => simp [commaJoin, hjoin]
          | cons r rs => simp [commaJoin_cons, hjoin, String.append_assoc]

theorem foldl_joinStep_eq (args : List String) :
    List.foldl joinStep "" args = commaJoin (args.dropWhile (fun a => a == "")) := by
  induction args with
  | nil => rfl
  | cons a rest ih =>
    by_cases ha : a = ""
    · subst ha
      have h00 : joinStep "" "" = "" := rfl
      simp [List.foldl, h00, ih, List.dropWhile]
    · have h0 : joinStep "" a = a := by simp [joinStep]
      have hstep : List.foldl joinStep "" (a :: rest) = List.foldl joinStep a rest := by
        simp [List.foldl, h0]
      rw [hstep, foldl_joinStep_ne rest a ha]
      have hb : (a == "") = false := beq_eq_false_iff_ne.mpr ha
      have hd : (a :: rest).dropWhile (fun x => x == "") = a :: rest := by
        simp [List.dropWhile, hb]
      rw [hd]

set_option maxHeartbeats 4000000 in
theorem parseLoop_warnings_irrelevant (argv : List String) (s : ParseState) :
    ∀ w, stripRes (parseLoop argv { s with warnings := w }) = stripRes (parseLoop argv s) := by
  induction argv, s using parseLoop.induct <;>
    intro w <;>
    (conv_lhs => rw [parseLoop.eq_def]) <;>
    (conv_rhs => rw [parseLoop.eq_def]) <;>
    (try (rename_i ih; simp [*, stripRes, stripWarn] at ih)) <;>
    (try (obtain rfl | rfl := ‹_ ∨ _›)) <;>
    (try simp only [startsDash] at *) <;>
    simp [*, stripRes, stripWarn]


theorem parseLoop_excl (argv : List String) (s : ParseState) :
    ∀ s2, ¬(s.override = true ∧ s.augment = true) →
      parseLoop argv s = .ok s2 → ¬(s2.override = true ∧ s2.augment = true) := by
  induction argv, s using parseLoop.induct <;>
    intro s2 hinv h <;>
    rw [parseLoop.eq_def] at h <;>
    simp_all [startsDash]

theorem parseLoop_excl_mem (argv : List String) (s : ParseState) :
    parseLoop argv s = .fail .exclusiveFlags →
      (s.override = true ∨ "--override" ∈ argv) ∧
      (s.augment = true ∨ "--augment" ∈ argv) := by
  induction argv, s using parseLoop.induct <;>
    intro h <;>
    rw [parseLoop.eq_def] at h <;>
    simp only [*, if_true, if_false] at h <;>
    first
    | (rename_i ih
       exact ⟨(ih h).1.imp id (fun hm => List.mem_cons_of_mem _ (List.mem_cons_of_mem _ hm)),
              (ih h).2.imp id (fun hm => List.mem_cons_of_mem _ (List.mem_cons_of_mem _ hm))⟩)
    | (rename_i ih
       exact ⟨(ih h).1.imp id (fun hm => List.mem_cons_of_mem _ hm),
              (ih h).2.imp id (fun hm => List.mem_cons_of_mem _ hm)⟩)
    | (constructor <;> simp_all [List.mem_cons])

theorem parseArgs_ok_loop (argv : List String) (s : ParseState)
    (h : parseArgs argv = .ok s) :
    parseLoop argv initState = .ok s ∧ s.ctbndl_file ≠ none ∧ s.port.length ≠ 0 := by
  unfold parseArgs at h
  rcases hl : parseLoop argv initState with s2 | _ | _ | e2 <;> rw [hl] at h <;> simp at h
  split_ifs at h with hn hp2 <;> simp at h
  subst h
  exact ⟨rfl, hn, hp2⟩

theorem parseArgs_fail_excl (argv : List String)
    (h : parseArgs argv = .fail .exclusiveFlags) :
    parseLoop argv initState = .fail .exclusiveFlags := by
  unfold parseArgs at h
  rcases hl : parseLoop argv initState with s2 | _ | _ | e2 <;> rw [hl] at h <;> simp at h
  · split_ifs at h <;> simp at h
  · rw [h]

theorem mainRun_net_exists (fs : FileSystem) (argv : List String) (r : ServerData)
    (req : ClientData) (w : List WriteAttempt) (c : Nat) (e : Option String)
    (h : mainRun fs argv r = .done req w c e) :
    ∃ path, fs path = some req.network := by
  rcases hp : parseArgs argv with s | _ | _ | e2 <;> simp [mainRun, hp] at h
  rcases hb : buildRequestData fs s with _ | req2 <;> simp [hb] at h
  obtain ⟨h1, -, -, -⟩ := h
  unfold buildRequestData at hb
  split at hb
  · cases hb
  · rename_i path hpath
    split at hb
    · cases hb
    · rename_i net hnet
      split at hb
      · cases hb
      · rename_i frags hfr
        simp only [Option.some.injEq] at hb
        refine ⟨path, ?_⟩
        rw [hnet, ← h1, ← hb]

/-- Demo file system: one network file. -/
def fsDemo : FileSystem := fun p => if p == "net.bnd" then some "A -> B;" else none

/-- Demo command line with port, output prefix and network file. -/
def argvDemo : List String := ["--port", "7777", "-o", "out", "net.bnd"]

/-- A failing reply carrying a non-empty trajectory blob. -/
def replyFail : ServerData := ⟨"T", "", "", "", "", 1, "unknown node C"⟩

/-- A successful reply with one non-empty blob. -/
def replyOk : ServerData := ⟨"", "", "t,A,B\n0,1,0\n", "", "", 0, ""⟩

/-- A command line without `-o`/`--output`. -/
def argvNoOut : List String := ["--port", "7777", "net.bnd"]

/-- A successful reply with only the trajectory blob non-empty. -/
def replyTraj : ServerData := ⟨"T", "", "", "", "", 0, ""⟩

/-- A file system holding an empty network file. -/
def fsEmptyNet : FileSystem := fun p => if p == "empty.bnd" then some "" else none

/-- A command line naming the empty network file. -/
def argvEmptyNet : List String := ["--port", "7777", "-o", "out", "empty.bnd"]

/-- A reply with all blobs empty and status 0. -/
def replyNothing : ServerData := ⟨"", "", "", "", "", 0, ""⟩

/-- A command line whose first `--config-vars` argument is the empty
string. -/
def argvCfgVars : List String :=
  ["--port", "7777", "-o", "out", "--config-vars", "", "--config-vars", "x", "net.bnd"]

/-- C1, counterexample: on the reply with status 1 and a non-empty
trajectory blob, the client still persists the blob (the write list is
non-empty), so "the client writes no output files" is false as stated,
even though the exit code is 1. -/
theorem c1_counterexample :
    replyFail.status ≠ 0 ∧
    writesOf (mainRun fsDemo argvDemo replyFail) = [⟨some "out", "_traj.txt", "T"⟩] ∧
    codeOf (mainRun fsDemo argvDemo replyFail) = 1 := by decide

/-- C1, amended: for every completed exchange whose reply status is
non-zero, the error message is surfaced on `std err` and the exit code is
1, but the blobs are persisted exactly as for a status-0 reply — the
write phase (lines 218-232) runs before the status check (line 234), so
non-empty blobs of a failing reply are still written. -/
theorem c1_nonzero_status_still_writes (fs : FileSystem) (argv : List String)
    (r : ServerData) (req : ClientData) (w : List WriteAttempt) (c : Nat)
    (e : Option String)
    (h : mainRun fs argv r = .done req w c e) (hs : r.status ≠ 0) :
    c = 1 ∧ e = some (errorLine r) ∧
      w = writesOf (mainRun fs argv { r with status := 0, errorMessage := "" }) := by
  rcases hp : parseArgs argv with s | _ | _ | e2 <;> simp [mainRun, hp] at h
  rcases hb : buildRequestData fs s with _ | req2 <;> simp [hb] at h
  obtain ⟨h1, h2, h3, h4⟩ := h
  subst h3; subst h4
  simp [mainRun, hp, hb, writesOf, finishExchange, outputWrites, hs, ← h2]

/-- C1, witness of the amended theorem at the demo run. -/
theorem c1_witness :
    (1 : Nat) = 1 ∧
    (some (errorLine replyFail) : Option String) = some (errorLine replyFail) ∧
    [(⟨some "out", "_traj.txt", "T"⟩ : WriteAttempt)] =
      writesOf (mainRun fsDemo argvDemo { replyFail with status := 0, errorMessage := "" }) :=
  c1_nonzero_status_still_writes fsDemo argvDemo replyFail
    ⟨"A -> B;", [], "", Command.runCmd, 0⟩ [⟨some "out", "_traj.txt", "T"⟩] 1
    (some (errorLine replyFail)) (by decide) (by decide)

/-- C2: OVERRIDE and AUGMENT are mutually exclusive. (a)/(b): processing
`--override` (resp. `--augment`) rejects exactly when the other flag is
already set, i.e. the second of the two is rejected; (c): no accepted
parse has both flags; (d): when the exclusivity error is raised the
whole run is the usage error, independent of the file system and of any
reply — no file is read, no request is built, no exchange happens;
(e): the error is only ever raised when both options were given. -/
theorem c2_override_augment_mutually_exclusive :
    (∀ (s : ParseState) (rest : List String),
      parseLoop ("--override" :: rest) s =
        if s.augment then .fail .exclusiveFlags
        else parseLoop rest { s with override := true }) ∧
    (∀ (s : ParseState) (rest : List String),
      parseLoop ("--augment" :: rest) s =
        if s.override then .fail .exclusiveFlags
        else parseLoop rest { s with augment := true }) ∧
    (∀ (argv : List String) (s : ParseState),
      parseArgs argv = .ok s → ¬(s.override = true ∧ s.augment = true)) ∧
    (∀ (argv : List String) (fs : FileSystem) (r : ServerData),
      parseArgs argv = .fail .exclusiveFlags →
        mainRun fs argv r = .usage .exclusiveFlags) ∧
    (∀ argv : List String,
      parseArgs argv = .fail .exclusiveFlags →
        "--override" ∈ argv ∧ "--augment" ∈ argv) := by
  refine ⟨?_, ?_, ?_, ?_, ?_⟩
  · intro s rest
    rw [parseLoop.eq_def]
    simp [startsDash]
  · intro s rest
    rw [parseLoop.eq_def]
    simp [startsDash]
  · intro argv s h
    obtain ⟨hl, -, -⟩ := parseArgs_ok_loop argv s h
    exact parseLoop_excl argv initState s (by simp [initState]) hl
  · intro argv fs r h
    simp [mainRun, h]
  · intro argv h
    have hl := parseArgs_fail_excl argv h
    have hm := parseLoop_excl_mem argv initState hl
    simp [initState] at hm
    exact hm

/-- C2, witness: the demo command line giving both flags is rejected as
the exclusivity error, both options are in it, and the run is the usage
outcome for any file system and reply. -/
theorem c2_witness :
    ("--override" ∈ ["--override", "--augment"] ∧
      "--augment" ∈ ["--override", "--augment"]) ∧
    mainRun fsDemo ["--override", "--augment"] replyOk = .usage .exclusiveFlags :=
  ⟨c2_override_augment_mutually_exclusive.2.2.2.2 ["--override", "--augment"] (by decide),
   c2_override_augment_mutually_exclusive.2.2.2.1 ["--override", "--augment"] fsDemo replyOk
     (by decide)⟩

/-- C3: each `--config`/`-c` (resp. `--config-expr`/`-e`) option appends
exactly one file-kind (resp. expression-kind) entry at the end of the
ordered option list; building the request maps that list one-to-one and
in order to tagged fragments (`buildFragments` equals the specification
`mapM`), and the request's fragment list is exactly the built one. -/
theorem c3_fragment_list_ordered_tagged :
    (∀ (s : ParseState) (a : String) (rest : List String),
      parseLoop ("--config" :: a :: rest) s =
        parseLoop rest { s with configs := s.configs ++ [ConfigOpt.file a] }) ∧
    (∀ (s : ParseState) (a : String) (rest : List String),
      parseLoop ("-c" :: a :: rest) s =
        parseLoop rest { s with configs := s.configs ++ [ConfigOpt.file a] }) ∧
    (∀ (s : ParseState) (a : String) (rest : List String),
      parseLoop ("--config-expr" :: a :: rest) s =
        parseLoop rest { s with configs := s.configs ++ [ConfigOpt.expr a] }) ∧
    (∀ (s : ParseState) (a : String) (rest : List String),
      parseLoop ("-e" :: a :: rest) s =
        parseLoop rest { s with configs := s.configs ++ [ConfigOpt.expr a] }) ∧
    (∀ (fs : FileSystem) (opts : List ConfigOpt),
      buildFragments fs opts = specFragments fs opts) ∧
    (∀ (fs : FileSystem) (s : ParseState) (req : ClientData),
      buildRequestData fs s = some req →
        buildFragments fs s.configs = some req.fragments) := by
  refine ⟨?_, ?_, ?_, ?_, buildFragments_eq_spec, ?_⟩
  · intro s a rest; simp [parseLoop, startsDash]
  · intro s a rest; simp [parseLoop, startsDash]
  · intro s a rest; simp [parseLoop, startsDash]
  · intro s a rest; simp [parseLoop, startsDash]
  · intro fs s req hb
    unfold buildRequestData at hb
    split at hb
    · cases hb
    · split at hb
      · cases hb
      · split at hb
        · cases hb
        · rename_i frags hfr
          simp only [Option.some.injEq] at hb
          rw [hfr, ← hb]

/-- A parse state with one file-kind and one expression-kind config
option, in that order. -/
def stateTwoConfigs : ParseState :=
  { initState with
    ctbndl_file := some "net.bnd"
    port := "7"
    configs := [ConfigOpt.file "net.bnd", ConfigOpt.expr "x=1"] }

/-- C3, witness: a state with one file option and one expression option,
in that order, builds exactly the two fragments in that order. -/
theorem c3_witness :
    buildFragments fsDemo stateTwoConfigs.configs =
      some [Fragment.fileContents "A -> B;", Fragment.exprText "x=1"] :=
  c3_fragment_list_ordered_tagged.2.2.2.2.2 fsDemo stateTwoConfigs
    ⟨"A -> B;", [Fragment.fileContents "A -> B;", Fragment.exprText "x=1"], "",
      Command.runCmd, 0⟩ (by decide)

/-- C4, counterexample: with `--config-vars ""` followed by
`--config-vars "x"`, the request's variable-override string is `"x"`,
while the comma-join of the option arguments is `",x"` — the first,
empty, argument contributes no separator, so the claimed equality with
the comma-join fails. -/
theorem c4_counterexample :
    (reqOf (mainRun fsDemo argvCfgVars replyOk)).map ClientData.configVars = some "x" ∧
    commaJoin ["", "x"] = ",x" ∧ ("x" : String) ≠ ",x" := by decide

/-- C4, amended: each `--config-vars` option applies one `joinStep`
(comma only when the accumulator is already non-empty); the accumulated
string therefore equals the comma-join of the option arguments after
discarding leading empty arguments (in particular, the plain comma-join
whenever no leading argument is empty), and the request carries exactly
the accumulated string, set after all fragments regardless of option
positions. -/
theorem c4_config_vars_accumulation :
    (∀ (s : ParseState) (a : String) (rest : List String),
      parseLoop ("--config-vars" :: a :: rest) s =
        parseLoop rest { s with config_vars := joinStep s.config_vars a }) ∧
    (∀ args : List String,
      List.foldl joinStep "" args = commaJoin (args.dropWhile (fun a => a == ""))) ∧
    (∀ args : List String, ¬"" ∈ args →
      List.foldl joinStep "" args = commaJoin args) ∧
    (∀ (fs : FileSystem) (s : ParseState) (req : ClientData),
      buildRequestData fs s = some req → req.configVars = s.config_vars) := by
  refine ⟨?_, foldl_joinStep_eq, ?_, ?_⟩
  · intro s a rest; simp [parseLoop, startsDash]
  · intro args hne
    rw [foldl_joinStep_eq]
    have : args.dropWhile (fun a => a == "") = args := by
      cases args with
      | nil => rfl
      | cons a rest =>
        have ha : (a == "") = false := by
          apply beq_eq_false_iff_ne.mpr
          intro hc; exact hne (by rw [hc]; exact List.mem_cons_self _ _)
        simp [List.dropWhile, ha]
    rw [this]
  · intro fs s req hb
    unfold buildRequestData at hb
    split at hb
    · cases hb
    · split at hb
      · cases hb
      · split at hb
        · cases hb
        · simp only [Option.some.injEq] at hb
          rw [← hb]

/-- C4, witness of the amended theorem: the two-argument accumulation at
`["", "x"]` and the request field on the demo state. -/
theorem c4_witness :
    List.foldl joinStep "" ["NAME=1", "OTHER=2"] = commaJoin ["NAME=1", "OTHER=2"] ∧
    (⟨"A -> B;", [Fragment.fileContents "A -> B;", Fragment.exprText "x=1"], "",
        Command.runCmd, 0⟩ : ClientData).configVars = stateTwoConfigs.config_vars :=
  ⟨c4_config_vars_accumulation.2.2.1 ["NAME=1", "OTHER=2"] (by decide),
   c4_config_vars_accumulation.2.2.2 fsDemo stateTwoConfigs
     ⟨"A -> B;", [Fragment.fileContents "A -> B;", Fragment.exprText "x=1"], "",
       Command.runCmd, 0⟩ (by decide)⟩

/-- C5: for every reply and output prefix, a write with kind suffix `k`
and that kind's blob is in the write list exactly when the blob is
non-empty, and every write in the list is of that shape for some kind:
each of the five blobs is persisted under prefix-plus-fixed-suffix
exactly when non-empty, and an empty blob produces no file. -/
theorem c5_blob_written_iff_nonempty (stem : Option String) (sd : ServerData)
    (k : BlobKind) :
    ((⟨stem, suffixOf k, blobOf k sd⟩ : WriteAttempt) ∈ outputWrites stem sd ↔
      blobOf k sd ≠ "") ∧
    ∀ w ∈ outputWrites stem sd,
      ∃ k2, w = ⟨stem, suffixOf k2, blobOf k2 sd⟩ ∧ blobOf k2 sd ≠ "" := by
  constructor
  · rw [write_mem_iff]
    constructor
    · rintro ⟨k2, heq, hne⟩
      have hs : suffixOf k = suffixOf k2 := congrArg WriteAttempt.suffix heq
      cases suffixOf_inj k k2 hs
      exact hne
    · intro hne; exact ⟨k, rfl, hne⟩
  · intro w hw; exact (write_mem_iff stem sd w).1 hw

/-- C5, witness: the probability-trajectory blob of the demo reply is
written under `_probtraj.csv` because it is non-empty. -/
theorem c5_witness :
    (⟨some "out", suffixOf BlobKind.probTraj, blobOf BlobKind.probTraj replyOk⟩ :
        WriteAttempt) ∈ outputWrites (some "out") replyOk :=
  ((c5_blob_written_iff_nonempty (some "out") replyOk BlobKind.probTraj).1).2 (by decide)

/-- C6: for every completed exchange, the exit code is 0 exactly when
the reply status is 0, and on a non-zero status the client prints the
reply's error message together with the status value (the `errorLine`)
and exits with code 1. -/
theorem c6_exit_code_iff_status (fs : FileSystem) (argv : List String)
    (r : ServerData) (req : ClientData) (w : List WriteAttempt) (c : Nat)
    (e : Option String)
    (h : mainRun fs argv r = .done req w c e) :
    (c = 0 ↔ r.status = 0) ∧ (r.status ≠ 0 → c = 1 ∧ e = some (errorLine r)) := by
  unfold mainRun at h
  split at h
  · cases h
  · cases h
  · cases h
  · split at h
    · cases h
    · injection h with hreq hw hc he
      subst hc; subst he
      unfold finishExchange
      by_cases hs : r.status = 0 <;> simp [hs]

/-- C6, witness at the failing demo reply. -/
theorem c6_witness :
    ((1 : Nat) = 0 ↔ replyFail.status = 0) ∧
    (replyFail.status ≠ 0 →
      (1 : Nat) = 1 ∧
      (some (errorLine replyFail) : Option String) = some (errorLine replyFail)) :=
  c6_exit_code_iff_status fsDemo argvDemo replyFail
    ⟨"A -> B;", [], "", Command.runCmd, 0⟩ [⟨some "out", "_traj.txt", "T"⟩] 1
    (some (errorLine replyFail)) (by decide)

/-- C7: the flags word is the bitwise OR of exactly those of
`HEXFLOAT_FLAG` (bit 0), `OVERRIDE_FLAG` (bit 1), `AUGMENT_FLAG`
(bit 2) whose option was given (the parse booleans), and no other bit is
ever set. -/
theorem c7_flags_exact_or (hf ov au : Bool) :
    computeFlags hf ov au =
      ((if hf then HEXFLOAT_FLAG else 0) ||| (if ov then OVERRIDE_FLAG else 0) |||
        (if au then AUGMENT_FLAG else 0)) ∧
    (computeFlags hf ov au).testBit 0 = hf ∧
    (computeFlags hf ov au).testBit 1 = ov ∧
    (computeFlags hf ov au).testBit 2 = au ∧
    ∀ i, 3 ≤ i → (computeFlags hf ov au).testBit i = false := by
  have hlt : computeFlags hf ov au < 8 := by
    cases hf <;> cases ov <;> cases au <;> decide
  refine ⟨?_, ?_, ?_, ?_, fun i hi => Nat.testBit_eq_false_of_lt (lt_of_lt_of_le hlt ?_)⟩
  · cases hf <;> cases ov <;> cases au <;> decide
  · cases hf <;> cases ov <;> cases au <;> decide
  · cases hf <;> cases ov <;> cases au <;> decide
  · cases hf <;> cases ov <;> cases au <;> decide
  · calc (8:Nat) = 2^3 := rfl
      _ ≤ 2^i := Nat.pow_le_pow_right (by decide) hi

/-- C7, witness: with `--hexfloat` and `--augment` given, bit 3 (and
beyond) of the flags word is clear. -/
theorem c7_witness : (computeFlags true false true).testBit 3 = false :=
  (c7_flags_exact_or true false true).2.2.2.2 3 (by decide)

/-- C8, counterexample: with an empty (but readable) network file, the
run completes an exchange whose request has an empty network text — the
non-emptiness invariant is not enforced anywhere before the exchange. -/
theorem c8_counterexample :
    mainRun fsEmptyNet argvEmptyNet replyNothing =
      .done ⟨"", [], "", Command.runCmd, 0⟩ [] 0 none ∧
    (⟨"", [], "", Command.runCmd, 0⟩ : ClientData).network = "" := by decide

/-- C8, amended: the network file argument is required (an accepted
parse always carries one), and the network field of every request that
reaches the exchange is exactly the contents of some file read through
the file system — which may be empty; non-emptiness is never checked. -/
theorem c8_network_read_not_validated :
    (∀ (fs : FileSystem) (argv : List String) (r : ServerData) (req : ClientData)
        (w : List WriteAttempt) (c : Nat) (e : Option String),
      mainRun fs argv r = .done req w c e → ∃ path, fs path = some req.network) ∧
    (∀ (argv : List String) (s : ParseState),
      parseArgs argv = .ok s → s.ctbndl_file ≠ none) :=
  ⟨fun fs argv r req w c e h => mainRun_net_exists fs argv r req w c e h,
   fun argv s h => (parseArgs_ok_loop argv s h).2.1⟩

/-- C8, witness: the demo run's network text comes from a real file of
the demo file system. -/
theorem c8_witness :
    ∃ path, fsEmptyNet path = some (⟨"", [], "", Command.runCmd, 0⟩ : ClientData).network :=
  c8_network_read_not_validated.1 fsEmptyNet argvEmptyNet replyNothing
    ⟨"", [], "", Command.runCmd, 0⟩ [] 0 none (by decide)

/-- C9: when `-o`/`--output` is never given, parsing succeeds with the
output prefix still unset (`none`, the `NULL` of line 83) and no error
branch for a missing output prefix exists (`UsageErr` has no such
constructor); on a reply with a non-empty blob the write phase is
reached with that unset prefix, and the run still exits 0. -/
theorem c9_missing_output_not_validated :
    parseArgs argvNoOut =
      .ok { initState with port := "7777", ctbndl_file := some "net.bnd" } ∧
    mainRun fsDemo argvNoOut replyTraj =
      .done ⟨"A -> B;", [], "", Command.runCmd, 0⟩ [⟨none, "_traj.txt", "T"⟩] 0 none := by
  decide

/-- C10: a positional (non-dash) argument sets the network file when it
is still unset; any later positional argument only appends one warning
line (the run is not aborted), the rest of the parse is oblivious to
accumulated warnings (`stripRes`-equal states parse `stripRes`-equally),
and the built request does not depend on the warnings at all. -/
theorem c10_extra_positionals_warn_only :
    (∀ (s : ParseState) (p : String) (rest : List String),
      startsDash p = false → s.ctbndl_file = none →
        parseLoop (p :: rest) s = parseLoop rest { s with ctbndl_file := some p }) ∧
    (∀ (s : ParseState) (p : String) (rest : List String) (f : String),
      startsDash p = false → s.ctbndl_file = some f →
        parseLoop (p :: rest) s =
          parseLoop rest
            { s with warnings := s.warnings ++ [extraArgWarning (some f) p] }) ∧
    (∀ (argv : List String) (s : ParseState) (w : List String),
      stripRes (parseLoop argv { s with warnings := w }) = stripRes (parseLoop argv s)) ∧
    (∀ (fs : FileSystem) (s : ParseState),
      buildRequestData fs (stripWarn s) = buildRequestData fs s) := by
  refine ⟨?_, ?_, parseLoop_warnings_irrelevant, fun fs s => rfl⟩
  · intro s p rest h1 h2
    rw [parseLoop.eq_def]
    simp [h1, h2]
  · intro s p rest f h1 h2
    rw [parseLoop.eq_def]
    simp [h1, h2]

/-- C10, witness: with the network file already set, an extra positional
argument only appends its warning. -/
theorem c10_witness :
    parseLoop ["extra.bnd"] { initState with ctbndl_file := some "net.bnd" } =
      parseLoop []
        { { initState with ctbndl_file := some "net.bnd" } with
          warnings := ({ initState with ctbndl_file := some "net.bnd" } : ParseState).warnings
            ++ [extraArgWarning (some "net.bnd") "extra.bnd"] } :=
  c10_extra_positionals_warn_only.2.1 { initState with ctbndl_file := some "net.bnd" }
    "extra.bnd" [] "net.bnd" (by decide) (by decide)

end MaBoSSClient
